import Mathlib

/-!
Verification of the backend relay of the gemini-rag-master repository.

The definitions below are a shallow embedding of the Node.js backend
(`server.js`): pure Lean functions mirror the request handlers, with the
external services (Gemini completion API, Gemini file store, Supabase row
store, WhatsApp Graph API) modelled as explicit parameters describing the
outcome of each external call, and with the observable side effects of a
handler recorded as an explicit event list.
-/

namespace GeminiRag

/-- Lists whose elements are the characters of one string: `listIncludes pat l`
mirrors the JavaScript `String.prototype.includes` check, scanning for `pat`
as a contiguous run inside `l`. -/
def listIncludes (pat : List Char) : List Char → Bool
  | [] => pat.isEmpty
  | c :: cs => pat.isPrefixOf (c :: cs) || listIncludes pat cs

/-- JavaScript `s.includes(pat)` on Lean strings. -/
def strIncludes (s pat : String) : Bool :=
  listIncludes pat.data s.data

/-- JavaScript truthiness of a nullable string field: `null`, `undefined` and
the empty string are falsy, every other string is truthy. -/
def jsTruthy : Option String → Bool
  | none => false
  | some s => !s.isEmpty

/-- JavaScript `v || d` for a nullable string `v` and default `d`. -/
def jsOr (v : Option String) (d : String) : String :=
  match v with
  | none => d
  | some s => if s.isEmpty then d else s

/-- Function cleanPhoneNumber from server.js: strip every non-digit
character (the JavaScript replace of the non-digit regex by the empty
string). -/
def cleanPhoneNumber (phone : String) : String :=
  String.mk (phone.data.filter Char.isDigit)

/-! ## Retry wrapper (`callGeminiWithRetry`) -/

/-- An error thrown by the Gemini SDK call, as inspected by the retry
wrapper: an HTTP-like status code and a message string. -/
structure ApiError where
  status : Nat
  msg : String
deriving DecidableEq, Repr

/-- The invalid-API-key classification in `callGeminiWithRetry`:
status 400 together with a message containing "API key" or
"INVALID_ARGUMENT". -/
def isInvalidKeyError (e : ApiError) : Bool :=
  e.status == 400 && (strIncludes e.msg "API key" || strIncludes e.msg "INVALID_ARGUMENT")

/-- The transient classification in `callGeminiWithRetry`:
status 503 (overloaded), 429 (rate limit) or 500 (internal). -/
def isTransientError (e : ApiError) : Bool :=
  e.status == 503 || e.status == 429 || e.status == 500

/-- How a `callGeminiWithRetry` invocation ends: a successful response,
the synthetic credential error thrown on an invalid API key, the last
SDK error rethrown, or the loop exiting without any attempt (only
possible when the retry bound is zero; JavaScript returns undefined). -/
inductive RetryResult where
  | ok (text : String)
  | credentialError (msg : String)
  | apiError (e : ApiError)
  | noAttempt
deriving DecidableEq, Repr

/-- Observable outcome of a `callGeminiWithRetry` invocation: how many
SDK attempts were made, the sleep durations (in milliseconds, rational to
carry the jitter) between attempts, and the final result. -/
structure RetryOutcome where
  attempts : Nat
  delays : List ℚ
  result : RetryResult
deriving DecidableEq, Repr

/-- The `for (let i = 0; i < retries; i++)` loop body of
`callGeminiWithRetry`.  `results i` is the outcome of the i-th SDK call,
`jitter i` the value drawn by `Math.random() * 500` before the i-th sleep,
and `fuel = retries - i` the remaining iterations.  On a transient error
with `i < retries - 1` the loop sleeps `2^i * 1000 + jitter i` milliseconds
and retries; an invalid-key error throws at once; any other error (or a
transient error on the last attempt) is rethrown. -/
def retryGo (results : Nat → Except ApiError String) (jitter : Nat → ℚ) :
    Nat → Nat → RetryOutcome
  | _, 0 => ⟨0, [], RetryResult.noAttempt⟩
  | i, fuel + 1 =>
    match results i with
    | Except.ok t => ⟨1, [], RetryResult.ok t⟩
    | Except.error e =>
      if isInvalidKeyError e then
        ⟨1, [], RetryResult.credentialError "Invalid API Key. Please update it in Settings."⟩
      else if isTransientError e && fuel != 0 then
        let d : ℚ := 2 ^ i * 1000 + jitter i
        let rest := retryGo results jitter (i + 1) fuel
        ⟨rest.attempts + 1, d :: rest.delays, rest.result⟩
      else
        ⟨1, [], RetryResult.apiError e⟩

/-- Function callGeminiWithRetry from server.js (the server always calls
it with the default bound of 3 retries). -/
def callGeminiWithRetry (results : Nat → Except ApiError String) (jitter : Nat → ℚ)
    (retries : Nat) : RetryOutcome :=
  retryGo results jitter 0 retries

/-! ## Gemini file-store activation polling (`waitForFileActive`) -/

/-- The bounded poll loop inside `waitForFileActive`: `states i` is the
`state` field returned by the i-th `ai.files.get` call; ACTIVE returns
true, FAILED throws, anything else sleeps 2 s and polls again, and
exhausting the 30 iterations throws a timeout error. -/
def waitLoop (states : Nat → String) : Nat → Nat → Except String Bool
  | _, 0 => Except.error "File processing timed out."
  | i, fuel + 1 =>
    if states i == "ACTIVE" then Except.ok true
    else if states i == "FAILED" then
      Except.error "File processing failed on Google side."
    else waitLoop states (i + 1) fuel

/-- Function waitForFileActive from server.js: up to 30 polls, 2 s apart. -/
def waitForFileActive (states : Nat → String) : Except String Bool :=
  waitLoop states 0 30

/-! ## Documents: upload, delete, listing -/

/-- A row of the `documents` table, as written by the upload handler. -/
structure Doc where
  id : Nat
  name : String
  hash : String
  uri : String
  mimeType : String
  size : Nat
  status : String
  googleName : String
  createdAt : Nat
deriving DecidableEq, Repr

/-- The state the document endpoints act on: whether the Supabase client
is configured, the rows of the `documents` table (in insertion order),
and the set of file names currently held by the Gemini file store. -/
structure ServerState where
  hasSupabase : Bool
  documents : List Doc
  providerFiles : List String
deriving DecidableEq, Repr

/-- Supabase `.select().eq(...).single()`: yields a row exactly when the
filter matches exactly one row, otherwise the destructured `data` is null. -/
def singleRow (p : Doc → Bool) (docs : List Doc) : Option Doc :=
  match docs.filter p with
  | [d] => some d
  | _ => none

/-- Outcomes of the external calls made by one run of the upload handler:
presence of the multipart file, availability of the AI client, the
uploaded file metadata, the SHA-256 hex digest of the file content, the
Gemini file-store upload result (file name and uri, or a thrown error),
the poll states seen by `waitForFileActive`, the `documents` insert result
(assigned row id, or the database error message), whether the rollback
delete against the file store succeeds, and the insertion timestamp. -/
structure UploadEnv where
  hasFile : Bool
  aiReady : Bool
  fileName : String
  mimeType : String
  size : Nat
  hashHex : String
  providerResult : Except String (String × String)
  pollStates : Nat → String
  insertResult : Except String Nat
  rollbackDeleteOk : Bool
  createdAt : Nat

/-- HTTP response of the upload endpoint. -/
inductive UploadResp where
  | badRequest (msg : String)
  | conflict (existing : Doc)
  | serverError (msg : String)
  | okUpload (d : Doc)
deriving DecidableEq, Repr

/-- Externally visible document-related side effects, in order. -/
inductive FileEv where
  | provUpload (gname : String)
  | provDelete (gname : String)
  | dbInsert (rowId : Nat)
  | dbDelete (rowId : Nat)
deriving DecidableEq, Repr

/-- Result of an upload or delete handler run: the HTTP response, the
post-state, and the ordered list of external side effects. -/
structure HandlerOutcome (R : Type) where
  resp : R
  state : ServerState
  events : List FileEv
deriving Repr

/-- The `newDoc` record built by the upload handler: before the insert
the row id is not yet assigned (0); after a successful insert the row
carries the database-assigned id. -/
def newDocRow (env : UploadEnv) (gname uri : String) (rowId : Nat) : Doc :=
  { id := rowId, name := env.fileName, hash := env.hashHex, uri := uri,
    mimeType := env.mimeType, size := env.size, status := "success",
    googleName := gname, createdAt := env.createdAt }

/-- The `POST /api/upload` handler: reject when no file was sent; fail
when the AI client cannot be initialised; hash the content and reject a
duplicate hash with a conflict carrying the existing row; otherwise
upload to the Gemini file store, wait until the file is ACTIVE, insert
the metadata row, and on an insert error delete the just-uploaded
provider file (rollback) and surface the database error. -/
def uploadHandler (s : ServerState) (env : UploadEnv) : HandlerOutcome UploadResp :=
  if !env.hasFile then ⟨UploadResp.badRequest "No file uploaded", s, []⟩
  else if !env.aiReady then
    ⟨UploadResp.serverError "Gemini AI not initialized (check API Key)", s, []⟩
  else
    let dup := if s.hasSupabase then
        singleRow (fun d => d.hash == env.hashHex) s.documents
      else none
    match dup with
    | some existing => ⟨UploadResp.conflict existing, s, []⟩
    | none =>
      match env.providerResult with
      | Except.error m => ⟨UploadResp.serverError m, s, []⟩
      | Except.ok (gname, uri) =>
        let s1 : ServerState := { s with providerFiles := s.providerFiles ++ [gname] }
        match waitForFileActive env.pollStates with
        | Except.error m => ⟨UploadResp.serverError m, s1, [FileEv.provUpload gname]⟩
        | Except.ok _ =>
          if s.hasSupabase then
            match env.insertResult with
            | Except.error dbMsg =>
              let s2 := if env.rollbackDeleteOk then
                  { s1 with providerFiles := s1.providerFiles.erase gname }
                else s1
              ⟨UploadResp.serverError dbMsg, s2,
                [FileEv.provUpload gname, FileEv.provDelete gname]⟩
            | Except.ok newId =>
              let row := newDocRow env gname uri newId
              ⟨UploadResp.okUpload row,
                { s1 with documents := s1.documents ++ [row] },
                [FileEv.provUpload gname, FileEv.dbInsert newId]⟩
          else ⟨UploadResp.okUpload (newDocRow env gname uri 0), s1,
            [FileEv.provUpload gname]⟩

/-- HTTP response of the delete endpoint. -/
inductive DeleteResp where
  | okDelete
  | notFound
deriving DecidableEq, Repr

/-- The `DELETE /api/files/:id` handler: without Supabase it reports
success and does nothing; otherwise it looks the row up, attempts the
Gemini file-store deletion first when the row has a `google_name` and the
AI client is available (a file-store failure is only logged), and then
removes the metadata row in every case. -/
def deleteHandler (s : ServerState) (docId : Nat) (aiAvailable : Bool)
    (providerDeleteOk : Bool) : HandlerOutcome DeleteResp :=
  if !s.hasSupabase then ⟨DeleteResp.okDelete, s, []⟩
  else
    match singleRow (fun d => d.id == docId) s.documents with
    | none => ⟨DeleteResp.notFound, s, []⟩
    | some doc =>
      let attempt := doc.googleName != "" && aiAvailable
      let evs := if attempt then [FileEv.provDelete doc.googleName] else []
      let s1 := if attempt && providerDeleteOk then
          { s with providerFiles := s.providerFiles.erase doc.googleName }
        else s
      let s2 := { s1 with documents := s1.documents.filter (fun d => d.id != docId) }
      ⟨DeleteResp.okDelete, s2, evs ++ [FileEv.dbDelete docId]⟩

/-- The `GET /api/files` handler: an empty list without Supabase,
otherwise all document rows ordered by creation time, newest first. -/
def listFiles (s : ServerState) : List Doc :=
  if s.hasSupabase then
    s.documents.insertionSort (fun a b => b.createdAt ≤ a.createdAt)
  else []

/-! ## WhatsApp broadcast (`POST /api/whatsapp/broadcast`) -/

/-- Outcome of one Graph API send inside the broadcast loop: success, or
a failure carrying the provider error payload (`err.response.data.error`,
whose code may be absent) and the message string used as fallback. -/
inductive SendResult where
  | ok
  | fail (errCode : Option Nat) (errMsg : String)
deriving DecidableEq, Repr

/-- One entry of the `errors` array of the broadcast report. -/
structure BroadcastErr where
  number : String
  code : Option Nat
  message : String
  is24hWindowError : Bool
deriving DecidableEq, Repr

/-- The aggregate report returned by the broadcast endpoint. -/
structure BroadcastReport where
  total : Nat
  success : Nat
  failed : Nat
  errors : List BroadcastErr
deriving DecidableEq, Repr

/-- The error entry pushed for one failed recipient: the sanitized
number, the provider code and message, and the 24-hour-window flag set
exactly when the provider code is 131047. -/
def broadcastErrEntry (number : String) (c : Option Nat) (m : String) : BroadcastErr :=
  ⟨cleanPhoneNumber number, c, m, c == some 131047⟩

/-- The `for (const rawNumber of numbers)` loop of the broadcast
handler: each recipient is paired with the outcome of its Graph API send;
successes and failures bump the counters, each failure also appends an
error entry, and the loop never aborts early.  The first component of the
result is the list of sanitized numbers actually attempted, in order. -/
def broadcastLoop : List (String × SendResult) → BroadcastReport →
    List String × BroadcastReport
  | [], acc => ([], acc)
  | (rawNumber, r) :: rest, acc =>
    let number := cleanPhoneNumber rawNumber
    match r with
    | SendResult.ok =>
      let (ns, rep) := broadcastLoop rest { acc with success := acc.success + 1 }
      (number :: ns, rep)
    | SendResult.fail c m =>
      let (ns, rep) := broadcastLoop rest
        { acc with failed := acc.failed + 1,
                   errors := acc.errors ++ [broadcastErrEntry rawNumber c m] }
      (number :: ns, rep)

/-- HTTP response of the broadcast endpoint. -/
inductive BroadcastResp where
  | badRequest (msg : String)
  | okReport (attempted : List String) (report : BroadcastReport)
deriving DecidableEq, Repr

/-- The `POST /api/whatsapp/broadcast` handler, after the phone-number id
and token have been resolved from the environment and the settings row:
missing credentials give a 400; otherwise the report is initialised with
`total = numbers.length` and the loop runs over every recipient. -/
def broadcastHandler (phoneNumberId whatsappToken : Option String)
    (items : List (String × SendResult)) : BroadcastResp :=
  if !jsTruthy phoneNumberId || !jsTruthy whatsappToken then
    BroadcastResp.badRequest "WhatsApp credentials missing in config."
  else
    let (ns, rep) := broadcastLoop items ⟨items.length, 0, 0, []⟩
    BroadcastResp.okReport ns rep

/-! ## Config endpoint (`GET /api/config`) -/

/-- The single `app_settings` row, with every column nullable. -/
structure AppSettingsRow where
  systemInstructionCol : Option String
  marketingInstructionCol : Option String
  geminiApiKeyCol : Option String
  whatsappTokenCol : Option String
  whatsappPhoneNumberIdCol : Option String
  verifyTokenCol : Option String
  fbAppSecretCol : Option String
  fbPageTokenCol : Option String
  messengerTokenCol : Option String
  instagramTokenCol : Option String
deriving DecidableEq, Repr

/-- Masking of one secret column on read: the handler yields the fixed
eight-asterisk mask for a truthy stored value and the empty string
otherwise. -/
def maskSecret (v : Option String) : String :=
  if jsTruthy v then "********" else ""

/-- The JSON body returned by `GET /api/config`. -/
structure ConfigResp where
  systemInstruction : String
  marketingInstruction : String
  geminiApiKey : String
  whatsappToken : String
  whatsappPhoneNumberId : String
  verifyToken : String
  fbAppSecret : String
  fbPageToken : String
  messengerToken : String
  instagramToken : String
deriving DecidableEq, Repr

/-- The `GET /api/config` handler body once a settings row was fetched:
prompt fields pass through (defaulted to the empty string), every secret
field is masked. -/
def getConfig (row : AppSettingsRow) : ConfigResp :=
  { systemInstruction := jsOr row.systemInstructionCol ""
    marketingInstruction := jsOr row.marketingInstructionCol ""
    geminiApiKey := maskSecret row.geminiApiKeyCol
    whatsappToken := maskSecret row.whatsappTokenCol
    whatsappPhoneNumberId := maskSecret row.whatsappPhoneNumberIdCol
    verifyToken := maskSecret row.verifyTokenCol
    fbAppSecret := maskSecret row.fbAppSecretCol
    fbPageToken := maskSecret row.fbPageTokenCol
    messengerToken := maskSecret row.messengerTokenCol
    instagramToken := maskSecret row.instagramTokenCol }

/-! ## Auth middleware (`requireAuth`, `requireAdmin`) -/

/-- The identity attached to a request by `requireAuth`. -/
structure AuthedUser where
  id : String
  role : String
deriving DecidableEq, Repr

/-- The request context seen by handlers behind the middleware chain:
`req.user`, or none when `requireAuth` never attached one. -/
structure ReqCtx where
  user : Option AuthedUser
deriving DecidableEq, Repr

/-- What a middleware does with a request: answer it with a status code
and error message, or pass it on to the next handler. -/
inductive AuthDecision where
  | respond (code : Nat) (msg : String)
  | proceed (ctx : ReqCtx)
deriving DecidableEq, Repr

/-- Extraction of the bearer token: the authorization header, split on a
single space, at index 1. -/
def extractToken (authHeader : Option String) : Option String :=
  authHeader.bind (fun h => (h.splitOn " ").get? 1)

/-- Middleware requireAuth from server.js: with no Supabase client it
calls `next()` at once (demo mode) without attaching a user; otherwise a
missing token is a 401, an unverifiable token is a 401, and a verified
user is attached together with the profile role (default viewer). -/
def requireAuth (hasSupabase : Bool) (authHeader : Option String)
    (getUser : String → Option String) (profileRole : String → Option String) :
    AuthDecision :=
  let token := extractToken authHeader
  if !hasSupabase then AuthDecision.proceed ⟨none⟩
  else
    match token with
    | none => AuthDecision.respond 401 "Missing Authentication Token"
    | some t =>
      match getUser t with
      | none => AuthDecision.respond 401 "Invalid Token"
      | some uid =>
        AuthDecision.proceed ⟨some ⟨uid, jsOr (profileRole uid) "viewer"⟩⟩

/-- Middleware requireAdmin from server.js: 403 unless a user with role admin is
attached to the request. -/
def requireAdmin (ctx : ReqCtx) : AuthDecision :=
  match ctx.user with
  | some u =>
    if u.role == "admin" then AuthDecision.proceed ctx
    else AuthDecision.respond 403 "Access Denied: Admins only"
  | none => AuthDecision.respond 403 "Access Denied: Admins only"

/-- The middleware chain of the admin-gated endpoints:
`requireAuth` then `requireAdmin`. -/
def authThenAdmin (hasSupabase : Bool) (authHeader : Option String)
    (getUser : String → Option String) (profileRole : String → Option String) :
    AuthDecision :=
  match requireAuth hasSupabase authHeader getUser profileRole with
  | AuthDecision.proceed ctx => requireAdmin ctx
  | d => d

/-! ## WhatsApp webhook (`POST /webhook`) -/

/-- The type-specific payload of one inbound WhatsApp message. -/
inductive WaPayload where
  | text (body : String)
  | audio (mediaId : String)
  | image (mediaId : String) (caption : Option String)
  | other (t : String)
deriving DecidableEq, Repr

/-- One entry of `body.entry[0].changes[0].value.messages`. -/
structure WaMessage where
  sender : String
  msgId : String
  payload : WaPayload
deriving DecidableEq, Repr

/-- Outcomes of the external calls made while processing one message:
the media download (base64 data, or a thrown error) and the completion
call through the retry wrapper (response text, or a thrown error). -/
structure MsgEnv where
  mediaDownload : Except String String
  modelResult : Except String String

/-- Observable webhook effects, in order: the HTTP status sent back to
the platform, mark-as-read calls, reactions, and outbound text sends. -/
inductive WebhookEv where
  | httpStatus (code : Nat)
  | markRead (msgId : String)
  | reaction (msgId : String) (emoji : String)
  | sendText (recipient : String) (body : String)
deriving DecidableEq, Repr

/-- Processing of one message inside the webhook loop (WhatsApp sends
themselves are modelled as succeeding; mark-as-read and reactions catch
their own errors in the source).  Returns the emitted events and, when an
exception escapes the per-message code, the error that propagates to the
surrounding try/catch.  Text messages have no per-message catch: a model
error escapes after the mark-as-read.  Audio and image messages wrap the
media download and the model call in a try/catch that sends a fallback
text instead.  Messages of any other type match no branch and are
skipped. -/
def processMessage (aiOk : Bool) (m : WaMessage) (env : MsgEnv) :
    List WebhookEv × Option String :=
  if !aiOk then
    ([WebhookEv.sendText m.sender
        "System Error: AI not initialized. Please check server logs."], none)
  else
    match m.payload with
    | WaPayload.text _ =>
      match env.modelResult with
      | Except.ok t =>
        ([WebhookEv.markRead m.msgId, WebhookEv.sendText m.sender t], none)
      | Except.error e => ([WebhookEv.markRead m.msgId], some e)
    | WaPayload.audio _ =>
      let pre := [WebhookEv.markRead m.msgId, WebhookEv.reaction m.msgId "🎤"]
      match env.mediaDownload with
      | Except.error _ =>
        (pre ++ [WebhookEv.sendText m.sender "Error processing audio."], none)
      | Except.ok _ =>
        match env.modelResult with
        | Except.ok t => (pre ++ [WebhookEv.sendText m.sender t], none)
        | Except.error _ =>
          (pre ++ [WebhookEv.sendText m.sender "Error processing audio."], none)
    | WaPayload.image _ caption =>
      let pre := [WebhookEv.markRead m.msgId, WebhookEv.reaction m.msgId "👀"]
      let _cap := jsOr caption "Analyze this image."
      match env.mediaDownload with
      | Except.error _ =>
        (pre ++ [WebhookEv.sendText m.sender "Error processing image."], none)
      | Except.ok _ =>
        match env.modelResult with
        | Except.ok t => (pre ++ [WebhookEv.sendText m.sender t], none)
        | Except.error _ =>
          (pre ++ [WebhookEv.sendText m.sender "Error processing image."], none)
    | WaPayload.other _ => ([], none)

/-- The `for (const message of messages)` loop of the webhook handler:
messages are processed in order; an error escaping one message is caught
by the try/catch around the whole loop, which only logs it, so the
remaining messages of the batch are never processed. -/
def processBatch (aiOk : Bool) : List (WaMessage × MsgEnv) → List WebhookEv
  | [] => []
  | (m, env) :: rest =>
    match processMessage aiOk m env with
    | (evs, some _) => evs
    | (evs, none) => evs ++ processBatch aiOk rest

/-- The `POST /webhook` handler: a body whose `object` field is
`whatsapp_business_account` is acknowledged with HTTP 200 before any
message is processed (a missing entry/changes/messages chain, modelled by
a `none` batch, just returns after the 200); any other body is answered
with HTTP 404. -/
def webhookPost (objectField : String) (aiOk : Bool)
    (batch : Option (List (WaMessage × MsgEnv))) : List WebhookEv :=
  if objectField == "whatsapp_business_account" then
    WebhookEv.httpStatus 200 ::
      (match batch with
       | none => []
       | some b => processBatch aiOk b)
  else [WebhookEv.httpStatus 404]

/-! ## Concrete fixtures used by the witnesses -/

/-- A persisted document row used as a concrete fixture. -/
def sampleDoc : Doc :=
  { id := 1, name := "policy.pdf", hash := "h1", uri := "uri-old",
    mimeType := "application/pdf", size := 10, status := "success",
    googleName := "files/old", createdAt := 5 }

/-- A server state holding the sample document. -/
def sampleState : ServerState :=
  { hasSupabase := true, documents := [sampleDoc], providerFiles := ["files/old"] }

/-- A server state with an empty documents table. -/
def emptyState : ServerState :=
  { hasSupabase := true, documents := [], providerFiles := [] }

/-- An upload environment whose file content hashes to the hash of the
sample document. -/
def dupUploadEnv : UploadEnv :=
  { hasFile := true, aiReady := true, fileName := "policy.pdf",
    mimeType := "application/pdf", size := 10, hashHex := "h1",
    providerResult := Except.ok ("files/new", "uri-new"),
    pollStates := fun _ => "ACTIVE", insertResult := Except.ok 2,
    rollbackDeleteOk := true, createdAt := 6 }

/-- An upload environment for a fresh file whose metadata insert
succeeds with row id 2. -/
def freshUploadEnv : UploadEnv :=
  { hasFile := true, aiReady := true, fileName := "policy.pdf",
    mimeType := "application/pdf", size := 10, hashHex := "h1",
    providerResult := Except.ok ("files/new", "uri-new"),
    pollStates := fun _ => "ACTIVE", insertResult := Except.ok 2,
    rollbackDeleteOk := true, createdAt := 6 }

/-- An upload environment for a fresh file whose metadata insert fails
with a database error. -/
def insertFailUploadEnv : UploadEnv :=
  { hasFile := true, aiReady := true, fileName := "policy.pdf",
    mimeType := "application/pdf", size := 10, hashHex := "h1",
    providerResult := Except.ok ("files/new", "uri-new"),
    pollStates := fun _ => "ACTIVE",
    insertResult := Except.error "Could not find the google_name column",
    rollbackDeleteOk := true, createdAt := 6 }

/-- A settings row with one set of secret values (the instagram token is
stored as the empty string, which is falsy). -/
def rowA : AppSettingsRow :=
  { systemInstructionCol := some "Be helpful", marketingInstructionCol := some "Sell",
    geminiApiKeyCol := some "sk-live-1", whatsappTokenCol := some "wa-token-1",
    whatsappPhoneNumberIdCol := some "1230001", verifyTokenCol := some "verify-1",
    fbAppSecretCol := some "app-secret-1", fbPageTokenCol := some "page-1",
    messengerTokenCol := none, instagramTokenCol := some "" }

/-- A settings row agreeing with `rowA` on the prompts and on which
secrets are set, but with different secret values (the instagram token is
absent rather than empty). -/
def rowB : AppSettingsRow :=
  { systemInstructionCol := some "Be helpful", marketingInstructionCol := some "Sell",
    geminiApiKeyCol := some "sk-live-2", whatsappTokenCol := some "wa-token-2",
    whatsappPhoneNumberIdCol := some "4560002", verifyTokenCol := some "verify-2",
    fbAppSecretCol := some "app-secret-2", fbPageTokenCol := some "page-2",
    messengerTokenCol := none, instagramTokenCol := none }

/-- A first inbound text message. -/
def textMsg1 : WaMessage := ⟨"15551230001", "wamid.1", WaPayload.text "Bonjour"⟩

/-- A second inbound text message. -/
def textMsg2 : WaMessage := ⟨"15551230002", "wamid.2", WaPayload.text "Hello"⟩

/-- An inbound audio message. -/
def audioMsg : WaMessage := ⟨"15551230003", "wamid.3", WaPayload.audio "media-9"⟩

/-- A message environment where every external call succeeds. -/
def envOk : MsgEnv := ⟨Except.ok "base64data", Except.ok "Reponse"⟩

/-- A message environment where the model call fails. -/
def envModelFail : MsgEnv := ⟨Except.ok "base64data", Except.error "503 overloaded"⟩

/-- A message environment where the media download fails. -/
def envDownloadFail : MsgEnv := ⟨Except.error "Media too large", Except.ok "unused"⟩

/-! # Theorems -/

/-- A transient error (status 503, 429 or 500) never matches the
invalid-API-key classification (status 400). -/
theorem isInvalidKeyError_eq_false_of_transient (e : ApiError)
    (h : isTransientError e = true) : isInvalidKeyError e = false := by
  simp only [isTransientError, Bool.or_eq_true, beq_iff_eq] at h
  simp only [isInvalidKeyError, Bool.and_eq_false_iff, beq_eq_false_iff_ne, ne_eq]
  left
  omega

/-- C2: when the SDK call fails with a transient error (status 503, 429
or 500) on three consecutive attempts, `callGeminiWithRetry` with the
configured bound 3 makes exactly 3 attempts, rethrows the error of the
final attempt, and sleeps between attempts for `2^i * 1000` milliseconds
plus the jitter drawn from `[0, 500)`, a non-decreasing (indeed
increasing) sequence of delays. -/
theorem callGeminiWithRetry_transient_exhausts
    (results : Nat → Except ApiError String) (e : Nat → ApiError) (jitter : Nat → ℚ)
    (hres : ∀ i, i < 3 → results i = Except.error (e i))
    (htr : ∀ i, i < 3 → isTransientError (e i) = true)
    (hjit : ∀ i, 0 ≤ jitter i ∧ jitter i < 500) :
    (callGeminiWithRetry results jitter 3).attempts = 3 ∧
    (callGeminiWithRetry results jitter 3).result = RetryResult.apiError (e 2) ∧
    (callGeminiWithRetry results jitter 3).delays =
      [2 ^ 0 * 1000 + jitter 0, 2 ^ 1 * 1000 + jitter 1] ∧
    List.Chain' (fun a b => a ≤ b) (callGeminiWithRetry results jitter 3).delays := by
  have h0 := hres 0 (by omega)
  have h1 := hres 1 (by omega)
  have h2 := hres 2 (by omega)
  have t0 := htr 0 (by omega)
  have t1 := htr 1 (by omega)
  have t2 := htr 2 (by omega)
  have k0 := isInvalidKeyError_eq_false_of_transient (e 0) t0
  have k1 := isInvalidKeyError_eq_false_of_transient (e 1) t1
  have k2 := isInvalidKeyError_eq_false_of_transient (e 2) t2
  have hrun : callGeminiWithRetry results jitter 3 =
      ⟨3, [2 ^ 0 * 1000 + jitter 0, 2 ^ 1 * 1000 + jitter 1],
        RetryResult.apiError (e 2)⟩ := by
    simp [callGeminiWithRetry, retryGo, h0, h1, h2, k0, k1, k2, t0, t1, t2]
  refine ⟨by rw [hrun], by rw [hrun], by rw [hrun], ?_⟩
  rw [hrun]
  obtain ⟨hj0, hj0b⟩ := hjit 0
  obtain ⟨hj1, hj1b⟩ := hjit 1
  refine List.chain'_cons.mpr ⟨?_, List.chain'_singleton _⟩
  have : (2 : ℚ) ^ 0 * 1000 = 1000 := by norm_num
  have : (2 : ℚ) ^ 1 * 1000 = 2000 := by norm_num
  nlinarith

/-- Witness for C2 at a concrete run: every attempt fails with a 503
error and the jitter is constantly 100. -/
theorem callGeminiWithRetry_transient_exhausts_witness :
    (callGeminiWithRetry (fun _ => Except.error ⟨503, "The model is overloaded."⟩)
        (fun _ => 100) 3).attempts = 3 ∧
    (callGeminiWithRetry (fun _ => Except.error ⟨503, "The model is overloaded."⟩)
        (fun _ => 100) 3).result =
      RetryResult.apiError ⟨503, "The model is overloaded."⟩ ∧
    (callGeminiWithRetry (fun _ => Except.error ⟨503, "The model is overloaded."⟩)
        (fun _ => 100) 3).delays =
      [2 ^ 0 * 1000 + 100, 2 ^ 1 * 1000 + 100] ∧
    List.Chain' (fun a b => a ≤ b)
      (callGeminiWithRetry (fun _ => Except.error ⟨503, "The model is overloaded."⟩)
        (fun _ => 100) 3).delays :=
  callGeminiWithRetry_transient_exhausts
    (fun _ => Except.error ⟨503, "The model is overloaded."⟩)
    (fun _ => ⟨503, "The model is overloaded."⟩) (fun _ => 100)
    (fun _ _ => rfl) (fun _ _ => rfl) (fun _ => by norm_num)

/-- C3: when the SDK call fails with the invalid-API-key condition
(status 400 and a message containing "API key" or "INVALID_ARGUMENT"),
`callGeminiWithRetry` makes exactly one attempt, never sleeps, and
immediately throws the credential error, for every positive retry
bound. -/
theorem callGeminiWithRetry_invalidKey_immediate
    (results : Nat → Except ApiError String) (e : ApiError) (jitter : Nat → ℚ)
    (retries : Nat) (hr : 1 ≤ retries)
    (h0 : results 0 = Except.error e) (hk : isInvalidKeyError e = true) :
    (callGeminiWithRetry results jitter retries).attempts = 1 ∧
    (callGeminiWithRetry results jitter retries).delays = [] ∧
    (callGeminiWithRetry results jitter retries).result =
      RetryResult.credentialError "Invalid API Key. Please update it in Settings." := by
  obtain ⟨fuel, rfl⟩ : ∃ fuel, retries = fuel + 1 := ⟨retries - 1, by omega⟩
  simp [callGeminiWithRetry, retryGo, h0, hk]

/-- Witness for C3 at a concrete run: a 400 error whose message names the
API key, with 5 retries remaining. -/
theorem callGeminiWithRetry_invalidKey_immediate_witness :
    (callGeminiWithRetry
        (fun _ => Except.error ⟨400, "API key not valid. Please pass a valid API key."⟩)
        (fun _ => 0) 5).attempts = 1 ∧
    (callGeminiWithRetry
        (fun _ => Except.error ⟨400, "API key not valid. Please pass a valid API key."⟩)
        (fun _ => 0) 5).delays = [] ∧
    (callGeminiWithRetry
        (fun _ => Except.error ⟨400, "API key not valid. Please pass a valid API key."⟩)
        (fun _ => 0) 5).result =
      RetryResult.credentialError "Invalid API Key. Please update it in Settings." :=
  callGeminiWithRetry_invalidKey_immediate
    (fun _ => Except.error ⟨400, "API key not valid. Please pass a valid API key."⟩)
    ⟨400, "API key not valid. Please pass a valid API key."⟩
    (fun _ => 0) 5 (by omega) rfl (by decide)

/-- C1: an upload whose content hash matches the hash of an
already-persisted document returns the 409 conflict response carrying the
existing row, leaves the server state unchanged, and performs neither a
provider-file upload nor a metadata insert. -/
theorem uploadHandler_duplicate_conflict
    (s : ServerState) (env : UploadEnv) (existing : Doc)
    (hsb : s.hasSupabase = true) (hfile : env.hasFile = true) (hai : env.aiReady = true)
    (hdup : singleRow (fun d => d.hash == env.hashHex) s.documents = some existing) :
    uploadHandler s env = ⟨UploadResp.conflict existing, s, []⟩ := by
  simp [uploadHandler, hsb, hfile, hai, hdup]

/-- Witness for C1: re-uploading the bytes of the sample document is
answered with the conflict carrying its row and changes nothing. -/
theorem uploadHandler_duplicate_conflict_witness :
    uploadHandler sampleState dupUploadEnv =
      ⟨UploadResp.conflict sampleDoc, sampleState, []⟩ :=
  uploadHandler_duplicate_conflict sampleState dupUploadEnv sampleDoc
    rfl rfl rfl (by decide)

/-- C7: when the provider-file upload succeeds and the metadata insert
fails, the upload handler issues a compensating provider delete right
after the upload, surfaces the original database error as a 500, and the
documents table is unchanged. -/
theorem uploadHandler_rollback_on_insert_failure
    (s : ServerState) (env : UploadEnv) (gname uri dbMsg : String)
    (hsb : s.hasSupabase = true) (hfile : env.hasFile = true) (hai : env.aiReady = true)
    (hdup : singleRow (fun d => d.hash == env.hashHex) s.documents = none)
    (hprov : env.providerResult = Except.ok (gname, uri))
    (hwait : waitForFileActive env.pollStates = Except.ok true)
    (hins : env.insertResult = Except.error dbMsg) :
    (uploadHandler s env).resp = UploadResp.serverError dbMsg ∧
    (uploadHandler s env).events = [FileEv.provUpload gname, FileEv.provDelete gname] ∧
    (uploadHandler s env).state.documents = s.documents := by
  cases hrb : env.rollbackDeleteOk <;>
    simp [uploadHandler, hsb, hfile, hai, hdup, hprov, hwait, hins, hrb]

/-- Witness for C7: a fresh upload into the empty state whose insert
fails on a missing column. -/
theorem uploadHandler_rollback_on_insert_failure_witness :
    (uploadHandler emptyState insertFailUploadEnv).resp =
      UploadResp.serverError "Could not find the google_name column" ∧
    (uploadHandler emptyState insertFailUploadEnv).events =
      [FileEv.provUpload "files/new", FileEv.provDelete "files/new"] ∧
    (uploadHandler emptyState insertFailUploadEnv).state.documents =
      emptyState.documents :=
  uploadHandler_rollback_on_insert_failure emptyState insertFailUploadEnv
    "files/new" "uri-new" "Could not find the google_name column"
    rfl rfl rfl (by decide) rfl rfl rfl

/-- C8: a document uploaded and persisted with status success appears in
the listing; deleting it afterwards attempts the provider-file deletion
before removing the metadata row (whether or not the provider delete
succeeds), and the document no longer appears in the listing. -/
theorem upload_success_then_delete_round_trip
    (s : ServerState) (env : UploadEnv) (gname uri : String) (newId : Nat)
    (providerDeleteOk : Bool)
    (hsb : s.hasSupabase = true) (hfile : env.hasFile = true) (hai : env.aiReady = true)
    (hdup : singleRow (fun d => d.hash == env.hashHex) s.documents = none)
    (hprov : env.providerResult = Except.ok (gname, uri))
    (hg : gname ≠ "")
    (hwait : waitForFileActive env.pollStates = Except.ok true)
    (hins : env.insertResult = Except.ok newId)
    (hfresh : ∀ d ∈ s.documents, d.id ≠ newId) :
    (uploadHandler s env).resp = UploadResp.okUpload (newDocRow env gname uri newId) ∧
    (newDocRow env gname uri newId).status = "success" ∧
    newDocRow env gname uri newId ∈ listFiles (uploadHandler s env).state ∧
    (deleteHandler (uploadHandler s env).state newId true providerDeleteOk).resp =
      DeleteResp.okDelete ∧
    (deleteHandler (uploadHandler s env).state newId true providerDeleteOk).events =
      [FileEv.provDelete gname, FileEv.dbDelete newId] ∧
    (deleteHandler (uploadHandler s env).state newId true providerDeleteOk).state.documents =
      s.documents ∧
    newDocRow env gname uri newId ∉
      listFiles (deleteHandler (uploadHandler s env).state newId true providerDeleteOk).state := by
  have hrowid : (newDocRow env gname uri newId).id = newId := rfl
  have hrowg : (newDocRow env gname uri newId).googleName = gname := rfl
  have hup : uploadHandler s env =
      ⟨UploadResp.okUpload (newDocRow env gname uri newId),
        ⟨true, s.documents ++ [newDocRow env gname uri newId],
          s.providerFiles ++ [gname]⟩,
        [FileEv.provUpload gname, FileEv.dbInsert newId]⟩ := by
    simp [uploadHandler, hsb, hfile, hai, hdup, hprov, hwait, hins]
  have hfilter1 :
      (s.documents ++ [newDocRow env gname uri newId]).filter
        (fun d => d.id == newId) = [newDocRow env gname uri newId] := by
    rw [List.filter_append]
    have h1 : s.documents.filter (fun d => d.id == newId) = [] := by
      rw [List.filter_eq_nil_iff]
      intro d hd
      simpa using hfresh d hd
    rw [h1]
    simp [hrowid]
  have hfilter2 :
      (s.documents ++ [newDocRow env gname uri newId]).filter
        (fun d => d.id != newId) = s.documents := by
    rw [List.filter_append]
    have h1 : s.documents.filter (fun d => d.id != newId) = s.documents := by
      rw [List.filter_eq_self]
      intro d hd
      simpa using hfresh d hd
    rw [h1]
    simp [hrowid]
  have hge : (gname != "") = true := by simp [hg]
  have hdel : deleteHandler
        (⟨true, s.documents ++ [newDocRow env gname uri newId],
          s.providerFiles ++ [gname]⟩ : ServerState) newId true providerDeleteOk =
      ⟨DeleteResp.okDelete,
        ⟨true, s.documents,
          if providerDeleteOk then (s.providerFiles ++ [gname]).erase gname
          else s.providerFiles ++ [gname]⟩,
        [FileEv.provDelete gname, FileEv.dbDelete newId]⟩ := by
    cases providerDeleteOk <;>
      simp [deleteHandler, singleRow, hfilter1, hfilter2, hge, hrowg]
  rw [hup]
  refine ⟨rfl, rfl, ?_, ?_, ?_, ?_, ?_⟩
  · simp only [listFiles]
    rw [if_pos trivial, List.mem_insertionSort]
    simp
  · rw [hdel]
  · rw [hdel]
  · rw [hdel]
  · rw [hdel]
    simp only [listFiles]
    rw [if_pos trivial, List.mem_insertionSort]
    intro hmem
    exact hfresh _ hmem hrowid

/-- Witness for C8: the round trip on the empty state, with the
provider-side deletion failing. -/
theorem upload_success_then_delete_round_trip_witness :
    (uploadHandler emptyState freshUploadEnv).resp =
      UploadResp.okUpload (newDocRow freshUploadEnv "files/new" "uri-new" 2) ∧
    (newDocRow freshUploadEnv "files/new" "uri-new" 2).status = "success" ∧
    newDocRow freshUploadEnv "files/new" "uri-new" 2 ∈
      listFiles (uploadHandler emptyState freshUploadEnv).state ∧
    (deleteHandler (uploadHandler emptyState freshUploadEnv).state 2 true false).resp =
      DeleteResp.okDelete ∧
    (deleteHandler (uploadHandler emptyState freshUploadEnv).state 2 true false).events =
      [FileEv.provDelete "files/new", FileEv.dbDelete 2] ∧
    (deleteHandler (uploadHandler emptyState freshUploadEnv).state 2 true false).state.documents =
      emptyState.documents ∧
    newDocRow freshUploadEnv "files/new" "uri-new" 2 ∉
      listFiles (deleteHandler (uploadHandler emptyState freshUploadEnv).state 2 true false).state :=
  upload_success_then_delete_round_trip emptyState freshUploadEnv
    "files/new" "uri-new" 2 false rfl rfl rfl (by decide) rfl (by decide) rfl rfl
    (by intro d hd; simp [emptyState] at hd)

/-- The broadcast error entries produced for a list of recipients. -/
def broadcastErrsOf (items : List (String × SendResult)) : List BroadcastErr :=
  items.filterMap (fun p =>
    match p.2 with
    | SendResult.ok => none
    | SendResult.fail c m => some (broadcastErrEntry p.1 c m))

/-- Unfolded behaviour of the broadcast loop for any accumulator. -/
theorem broadcastLoop_spec (items : List (String × SendResult)) (acc : BroadcastReport) :
    broadcastLoop items acc =
      (items.map (fun p => cleanPhoneNumber p.1),
        { total := acc.total,
          success := acc.success + items.countP (fun p => p.2 == SendResult.ok),
          failed := acc.failed + items.countP (fun p => p.2 != SendResult.ok),
          errors := acc.errors ++ broadcastErrsOf items }) := by
  induction items generalizing acc with
  | nil => simp [broadcastLoop, broadcastErrsOf]
  | cons hd tl ih =>
    obtain ⟨n, r⟩ := hd
    cases r with
    | ok =>
      simp only [broadcastLoop]
      rw [ih]
      simp [broadcastErrsOf, List.countP_cons, List.filterMap_cons, Prod.mk.injEq,
        BroadcastReport.mk.injEq, List.append_assoc]
      omega
    | fail c m =>
      simp only [broadcastLoop]
      rw [ih]
      simp [broadcastErrsOf, List.countP_cons, List.filterMap_cons, Prod.mk.injEq,
        BroadcastReport.mk.injEq, List.append_assoc]
      omega

/-- Every recipient is classified as exactly one of success and failure. -/
theorem countP_ok_add_countP_fail (items : List (String × SendResult)) :
    items.countP (fun p => p.2 == SendResult.ok) +
      items.countP (fun p => p.2 != SendResult.ok) = items.length := by
  induction items with
  | nil => simp
  | cons hd tl ih =>
    obtain ⟨n, r⟩ := hd
    cases r <;> simp [List.countP_cons] <;> omega

/-- One error entry is produced per failed recipient. -/
theorem broadcastErrsOf_length (items : List (String × SendResult)) :
    (broadcastErrsOf items).length = items.countP (fun p => p.2 != SendResult.ok) := by
  induction items with
  | nil => simp [broadcastErrsOf]
  | cons hd tl ih =>
    obtain ⟨n, r⟩ := hd
    cases r <;> simp [broadcastErrsOf, List.filterMap_cons, List.countP_cons] at ih ⊢ <;>
      omega

/-- Every produced error entry flags the 24-hour window exactly when its
provider code is 131047. -/
theorem broadcastErrsOf_window_flag (items : List (String × SendResult)) :
    ∀ e ∈ broadcastErrsOf items, e.is24hWindowError = (e.code == some 131047) := by
  intro e he
  simp only [broadcastErrsOf, List.mem_filterMap] at he
  obtain ⟨⟨n, r⟩, _, hr⟩ := he
  cases r with
  | ok => simp at hr
  | fail c m =>
    simp only [Option.some.injEq] at hr
    subst hr
    rfl

/-- C6: for every broadcast request (with credentials configured), every
recipient is attempted in order, the report satisfies `total = N` and
`success + failed = N = total`, and the errors list holds exactly one
entry per failed recipient, carrying the provider code and message and
flagging the 24-hour window exactly when the code is 131047. -/
theorem broadcastHandler_report (items : List (String × SendResult)) :
    broadcastHandler (some "1230001") (some "wa-token-1") items =
      BroadcastResp.okReport (items.map (fun p => cleanPhoneNumber p.1))
        { total := items.length,
          success := items.countP (fun p => p.2 == SendResult.ok),
          failed := items.countP (fun p => p.2 != SendResult.ok),
          errors := broadcastErrsOf items } ∧
    items.countP (fun p => p.2 == SendResult.ok) +
      items.countP (fun p => p.2 != SendResult.ok) = items.length ∧
    (broadcastErrsOf items).length = items.countP (fun p => p.2 != SendResult.ok) ∧
    ∀ e ∈ broadcastErrsOf items, e.is24hWindowError = (e.code == some 131047) := by
  refine ⟨?_, countP_ok_add_countP_fail items, broadcastErrsOf_length items,
    broadcastErrsOf_window_flag items⟩
  have hcreds : (!jsTruthy (some "1230001") || !jsTruthy (some "wa-token-1")) = false := by
    decide
  simp [broadcastHandler, hcreds, broadcastLoop_spec]

/-- Witness for C6 at a concrete batch of three recipients with one
success and two failures, one of which is a 24-hour-window violation. -/
theorem broadcastHandler_report_witness :
    broadcastHandler (some "1230001") (some "wa-token-1")
        [("+33 612-345-678", SendResult.ok),
         ("15550002222", SendResult.fail (some 131047) "outside window"),
         ("15550003333", SendResult.fail none "unknown subscriber")] =
      BroadcastResp.okReport ["33612345678", "15550002222", "15550003333"]
        ⟨3, 1, 2,
         [⟨"15550002222", some 131047, "outside window", true⟩,
          ⟨"15550003333", none, "unknown subscriber", false⟩]⟩ ∧
    (⟨"15550002222", some 131047, "outside window", true⟩ : BroadcastErr).is24hWindowError =
      ((⟨"15550002222", some 131047, "outside window", true⟩ : BroadcastErr).code ==
        some 131047) :=
  ⟨(broadcastHandler_report
      [("+33 612-345-678", SendResult.ok),
       ("15550002222", SendResult.fail (some 131047) "outside window"),
       ("15550003333", SendResult.fail none "unknown subscriber")]).1.trans (by decide),
   (broadcastHandler_report
      [("+33 612-345-678", SendResult.ok),
       ("15550002222", SendResult.fail (some 131047) "outside window"),
       ("15550003333", SendResult.fail none "unknown subscriber")]).2.2.2
     ⟨"15550002222", some 131047, "outside window", true⟩ (by decide)⟩

/-- C9: the config read masks every secret column (the fixed mask when
the stored value is truthy, the empty string otherwise), and two settings
rows agreeing on the prompt columns and on which secrets are set produce
identical responses, whatever the secret values are. -/
theorem getConfig_masks_secrets (r1 r2 : AppSettingsRow)
    (hsys : r1.systemInstructionCol = r2.systemInstructionCol)
    (hmkt : r1.marketingInstructionCol = r2.marketingInstructionCol)
    (hgem : jsTruthy r1.geminiApiKeyCol = jsTruthy r2.geminiApiKeyCol)
    (hwat : jsTruthy r1.whatsappTokenCol = jsTruthy r2.whatsappTokenCol)
    (hwpn : jsTruthy r1.whatsappPhoneNumberIdCol = jsTruthy r2.whatsappPhoneNumberIdCol)
    (hver : jsTruthy r1.verifyTokenCol = jsTruthy r2.verifyTokenCol)
    (hfas : jsTruthy r1.fbAppSecretCol = jsTruthy r2.fbAppSecretCol)
    (hfpt : jsTruthy r1.fbPageTokenCol = jsTruthy r2.fbPageTokenCol)
    (hmes : jsTruthy r1.messengerTokenCol = jsTruthy r2.messengerTokenCol)
    (hins : jsTruthy r1.instagramTokenCol = jsTruthy r2.instagramTokenCol) :
    ((getConfig r1).geminiApiKey =
      if jsTruthy r1.geminiApiKeyCol then "********" else "") ∧
    ((getConfig r1).whatsappToken =
      if jsTruthy r1.whatsappTokenCol then "********" else "") ∧
    ((getConfig r1).whatsappPhoneNumberId =
      if jsTruthy r1.whatsappPhoneNumberIdCol then "********" else "") ∧
    ((getConfig r1).verifyToken =
      if jsTruthy r1.verifyTokenCol then "********" else "") ∧
    ((getConfig r1).fbAppSecret =
      if jsTruthy r1.fbAppSecretCol then "********" else "") ∧
    ((getConfig r1).fbPageToken =
      if jsTruthy r1.fbPageTokenCol then "********" else "") ∧
    ((getConfig r1).messengerToken =
      if jsTruthy r1.messengerTokenCol then "********" else "") ∧
    ((getConfig r1).instagramToken =
      if jsTruthy r1.instagramTokenCol then "********" else "") ∧
    getConfig r1 = getConfig r2 := by
  refine ⟨rfl, rfl, rfl, rfl, rfl, rfl, rfl, rfl, ?_⟩
  simp [getConfig, maskSecret, hsys, hmkt, hgem, hwat, hwpn, hver, hfas, hfpt,
    hmes, hins]

/-- Witness for C9: two concrete rows differing in every secret value
(and with an empty-string versus absent instagram token) yield the same
masked response. -/
theorem getConfig_masks_secrets_witness :
    ((getConfig rowA).geminiApiKey =
      if jsTruthy rowA.geminiApiKeyCol then "********" else "") ∧
    ((getConfig rowA).whatsappToken =
      if jsTruthy rowA.whatsappTokenCol then "********" else "") ∧
    ((getConfig rowA).whatsappPhoneNumberId =
      if jsTruthy rowA.whatsappPhoneNumberIdCol then "********" else "") ∧
    ((getConfig rowA).verifyToken =
      if jsTruthy rowA.verifyTokenCol then "********" else "") ∧
    ((getConfig rowA).fbAppSecret =
      if jsTruthy rowA.fbAppSecretCol then "********" else "") ∧
    ((getConfig rowA).fbPageToken =
      if jsTruthy rowA.fbPageTokenCol then "********" else "") ∧
    ((getConfig rowA).messengerToken =
      if jsTruthy rowA.messengerTokenCol then "********" else "") ∧
    ((getConfig rowA).instagramToken =
      if jsTruthy rowA.instagramTokenCol then "********" else "") ∧
    getConfig rowA = getConfig rowB :=
  getConfig_masks_secrets rowA rowB rfl rfl rfl rfl rfl rfl rfl rfl rfl rfl

/-- C10: with no Supabase client configured, `requireAuth` passes every
request through without attaching a user, whatever the authorization
header and however the auth service and profile table would answer; as a
consequence every admin-gated endpoint answers 403 for every request in
that mode. -/
theorem requireAuth_demo_mode_bypass
    (authHeader : Option String) (getUser : String → Option String)
    (profileRole : String → Option String) :
    requireAuth false authHeader getUser profileRole = AuthDecision.proceed ⟨none⟩ ∧
    authThenAdmin false authHeader getUser profileRole =
      AuthDecision.respond 403 "Access Denied: Admins only" := by
  constructor <;> simp [requireAuth, authThenAdmin, requireAdmin]

/-- C4 counterexample: a webhook POST whose object field is not the
WhatsApp business account type is answered with HTTP 404; no HTTP 200 is
ever sent for it. -/
theorem webhookPost_non_whatsapp_404 :
    webhookPost "instagram" true none = [WebhookEv.httpStatus 404] ∧
    WebhookEv.httpStatus 200 ∉ webhookPost "instagram" true none := by
  decide

/-- C4 as amended: a webhook POST whose object field is the WhatsApp
business account type is acknowledged with HTTP 200 as the first
observable effect, before and regardless of any per-message processing;
any other POST body is answered with HTTP 404. -/
theorem webhookPost_ack_before_processing (objectField : String) (aiOk : Bool)
    (batch : Option (List (WaMessage × MsgEnv))) :
    (objectField = "whatsapp_business_account" →
      (webhookPost objectField aiOk batch).head? = some (WebhookEv.httpStatus 200)) ∧
    (objectField ≠ "whatsapp_business_account" →
      webhookPost objectField aiOk batch = [WebhookEv.httpStatus 404]) := by
  constructor
  · rintro rfl
    simp [webhookPost]
  · intro h
    simp [webhookPost, h]

/-- Witness for C4 as amended: a well-formed body with one failing and
one succeeding message is acknowledged first; a body with a different
object field gets the 404. -/
theorem webhookPost_ack_before_processing_witness :
    (webhookPost "whatsapp_business_account" true
        (some [(textMsg1, envModelFail), (textMsg2, envOk)])).head? =
      some (WebhookEv.httpStatus 200) ∧
    webhookPost "page" true none = [WebhookEv.httpStatus 404] :=
  ⟨(webhookPost_ack_before_processing "whatsapp_business_account" true
      (some [(textMsg1, envModelFail), (textMsg2, envOk)])).1 rfl,
   (webhookPost_ack_before_processing "page" true none).2 (by decide)⟩

/-- C5 counterexample: in a batch whose first message is plain text and
whose model call fails, the only effect is the mark-as-read of the first
message: no fallback reply is sent to its sender and the second message
is never processed. -/
theorem webhook_text_failure_aborts_batch :
    webhookPost "whatsapp_business_account" true
        (some [(textMsg1, envModelFail), (textMsg2, envOk)]) =
      [WebhookEv.httpStatus 200, WebhookEv.markRead "wamid.1"] ∧
    WebhookEv.sendText "15551230001" "Error processing audio." ∉
      webhookPost "whatsapp_business_account" true
        (some [(textMsg1, envModelFail), (textMsg2, envOk)]) ∧
    WebhookEv.markRead "wamid.2" ∉
      webhookPost "whatsapp_business_account" true
        (some [(textMsg1, envModelFail), (textMsg2, envOk)]) := by
  decide

/-- Processing an audio or image message never lets an exception escape
to the batch loop. -/
theorem processMessage_media_none (aiOk : Bool) (m : WaMessage) (env : MsgEnv) :
    (∀ mid, m.payload = WaPayload.audio mid → (processMessage aiOk m env).2 = none) ∧
    (∀ mid cap, m.payload = WaPayload.image mid cap →
      (processMessage aiOk m env).2 = none) := by
  constructor
  · intro mid h
    cases aiOk
    · rfl
    · rcases hd : env.mediaDownload with d | d <;>
        rcases hm : env.modelResult with r | r <;>
          simp [processMessage, h, hd, hm]
  · intro mid cap h
    cases aiOk
    · rfl
    · rcases hd : env.mediaDownload with d | d <;>
        rcases hm : env.modelResult with r | r <;>
          simp [processMessage, h, hd, hm]

/-- A batch step whose message does not throw continues with the rest of
the batch. -/
theorem processBatch_cons_of_none (aiOk : Bool) (m : WaMessage) (env : MsgEnv)
    (rest : List (WaMessage × MsgEnv))
    (h : (processMessage aiOk m env).2 = none) :
    processBatch aiOk ((m, env) :: rest) =
      (processMessage aiOk m env).1 ++ processBatch aiOk rest := by
  rcases hpm : processMessage aiOk m env with ⟨evs, err⟩
  rw [hpm] at h
  subst h
  simp [processBatch, hpm]

/-- C5 as amended: failures while processing an audio or image message
(media download error or model error) are caught per-message and turned
into a fallback reply to the sender, and the rest of the batch is still
processed; but a model error on a plain-text message is not caught: it
aborts the remaining messages and sends no fallback reply. -/
theorem webhook_per_message_error_handling (m : WaMessage) (env : MsgEnv)
    (rest : List (WaMessage × MsgEnv)) :
    (∀ mid, m.payload = WaPayload.audio mid →
      processBatch true ((m, env) :: rest) =
        (processMessage true m env).1 ++ processBatch true rest) ∧
    (∀ mid cap, m.payload = WaPayload.image mid cap →
      processBatch true ((m, env) :: rest) =
        (processMessage true m env).1 ++ processBatch true rest) ∧
    (∀ mid, m.payload = WaPayload.audio mid →
      ((∃ d, env.mediaDownload = Except.error d) ∨
        (∃ d, env.modelResult = Except.error d)) →
      WebhookEv.sendText m.sender "Error processing audio." ∈
        (processMessage true m env).1) ∧
    (∀ mid cap, m.payload = WaPayload.image mid cap →
      ((∃ d, env.mediaDownload = Except.error d) ∨
        (∃ d, env.modelResult = Except.error d)) →
      WebhookEv.sendText m.sender "Error processing image." ∈
        (processMessage true m env).1) ∧
    (∀ body d, m.payload = WaPayload.text body → env.modelResult = Except.error d →
      processBatch true ((m, env) :: rest) = [WebhookEv.markRead m.msgId]) := by
  refine ⟨?_, ?_, ?_, ?_, ?_⟩
  · intro mid h
    exact processBatch_cons_of_none true m env rest
      ((processMessage_media_none true m env).1 mid h)
  · intro mid cap h
    exact processBatch_cons_of_none true m env rest
      ((processMessage_media_none true m env).2 mid cap h)
  · intro mid h hf
    rcases hf with ⟨d, hd⟩ | ⟨d, hd⟩
    · simp [processMessage, h, hd]
    · rcases hm : env.mediaDownload with r | r <;>
        simp [processMessage, h, hd, hm]
  · intro mid cap h hf
    rcases hf with ⟨d, hd⟩ | ⟨d, hd⟩
    · simp [processMessage, h, hd]
    · rcases hm : env.mediaDownload with r | r <;>
        simp [processMessage, h, hd, hm]
  · intro body d hp hm
    simp [processBatch, processMessage, hp, hm]

/-- Witness for C5 as amended: an audio message whose media download
fails produces the fallback reply and the following text message is still
processed. -/
theorem webhook_per_message_error_handling_witness :
    processBatch true [(audioMsg, envDownloadFail), (textMsg2, envOk)] =
      (processMessage true audioMsg envDownloadFail).1 ++
        processBatch true [(textMsg2, envOk)] ∧
    WebhookEv.sendText audioMsg.sender "Error processing audio." ∈
      (processMessage true audioMsg envDownloadFail).1 :=
  ⟨(webhook_per_message_error_handling audioMsg envDownloadFail
      [(textMsg2, envOk)]).1 "media-9" rfl,
   (webhook_per_message_error_handling audioMsg envDownloadFail
      [(textMsg2, envOk)]).2.2.1 "media-9" rfl (Or.inl ⟨"Media too large", rfl⟩)⟩

end GeminiRag
